import Mathlib

/-!
Verification development for the AlgoPump trading SDK
(`trading_bot_sdk.py`, `pump_fun_buy_fixed.py`).

The Python source is shallowly embedded:
* machine integers are `ℤ`/`ℕ`; Python floor division `//` is `Int.fdiv`;
* Python floats are modelled as exact rationals `ℚ`; `int(x)` (truncation
  toward zero) is `pyInt`;
* byte strings are `List ℕ` (one entry per byte);
* fallible code returns `Except`;
* external deterministic address derivations (`find_program_address`,
  `get_associated_token_address` from the solders / spl libraries, outside
  this repository) are modelled as free constructors of an inductive
  `Pubkey` type: they are injective deterministic functions whose hash
  internals are irrelevant to the claims.
-/

deriving instance DecidableEq for Except

namespace AlgoPump

/-- Python `int(x)` on a real value: truncation toward zero. -/
def pyInt (x : ℚ) : ℤ := if 0 ≤ x then ⌊x⌋ else ⌈x⌉

/-- Little-endian interpretation of a byte list, as in Python
`int.from_bytes(b, 'little')` (total: accepts any length, empty gives 0). -/
def le_bytes_to_nat (l : List ℕ) : ℕ := l.foldr (fun b acc => b + 256 * acc) 0

/-- Python `struct.pack("<Q", n)`: the 8 little-endian bytes of `n`. -/
def pack_u64_le (n : ℕ) : List ℕ := (List.range 8).map fun i => n / 256 ^ i % 256

/-- Python slice `data[off : off + len]`. -/
def byteSlice (data : List ℕ) (off len : ℕ) : List ℕ := (data.drop off).take len

/-- Addresses.  `base58` embeds the textual constants of the source;
`ata` models `spl.token.instructions.get_associated_token_address`;
`pda0`/`pda1` model `Pubkey.find_program_address` applied to a fixed seed
tag, respectively to a tag plus the bytes of one key.  These external
derivations are deterministic and collision-free, hence free constructors. -/
inductive Pubkey where
  | base58 (s : String)
  | ata (owner mint : Pubkey)
  | pda0 (tag : String) (program : Pubkey)
  | pda1 (tag : String) (key : Pubkey) (program : Pubkey)
  deriving DecidableEq, Repr

/-- Models `spl.token.instructions.get_associated_token_address`. -/
def get_associated_token_address (owner mint : Pubkey) : Pubkey := .ata owner mint

-- Constants of `trading_bot_sdk.py` (lines 63-75) and
-- `pump_fun_buy_fixed.py` (lines 27-40).
def SOL_MINT : Pubkey := .base58 "So11111111111111111111111111111111111111112"
def PUMP_AMM_PROGRAM_ID : Pubkey := .base58 "pAMMBay6oceH9fJKBRHGP5D4bD4sWpmSwMn52FMfXEA"
def PUMP_SWAP_GLOBAL_CONFIG : Pubkey := .base58 "ADyA8hdefvWN2dbGGWFotbzWxrAvLW83WG6QCVXvJKqw"
def PUMP_PROTOCOL_FEE_RECIPIENT : Pubkey := .base58 "7VtfL8fvgNfhz17qKRMjzQEXgbdpnHHHQRh54R9jP2RJ"
def PUMP_PROTOCOL_FEE_RECIPIENT_TOKEN_ACCOUNT : Pubkey := .base58 "7GFUN3bWzJMKMRZ34JLsvcqdssDbXnp589SiE33KVwcC"
def SYSTEM_TOKEN_PROGRAM : Pubkey := .base58 "TokenkegQfeZyiNwAJbNbGKPFXCWuBvf9Ss623VQ5DA"
def SYSTEM_PROGRAM : Pubkey := .base58 "11111111111111111111111111111111"
def SYSTEM_ASSOCIATED_TOKEN_ACCOUNT_PROGRAM : Pubkey := .base58 "ATokenGPvbdGVxr1b2hvZbsiqW5xWH25efTNsLJA8knL"
def PUMP_SWAP_EVENT_AUTHORITY : Pubkey := .base58 "GS4CU59F31iL7aR2Q8zVS8DRrcRnXX1yjQ66TqNVQnaR"
def PUMP_PROGRAM : Pubkey := .base58 "6EF8rrecthR5Dkzon8Nwu78hRvfCKubJ14M5uBEwF6P"
def PUMP_GLOBAL : Pubkey := .base58 "4wTV1YmiEkRvAtNtsSGPtUrqRYQMe5SKy2uB4Jjaxnjf"
def PUMP_EVENT_AUTHORITY : Pubkey := .base58 "Ce6TQqeHC9p8KetsN6JsjHK7UTZk7nasjjnr7XxXp9F1"
def PUMP_FEE : Pubkey := .base58 "CebN5WGQ4jvEPvsVU4EoHEpgzq1VV7AbicfhtW4xC9iM"

/-- `PUMPSWAP_BUY_DISCRIMINATOR = bytes.fromhex("66063d1201daebea")`. -/
def PUMPSWAP_BUY_DISCRIMINATOR : List ℕ := [0x66, 0x06, 0x3d, 0x12, 0x01, 0xda, 0xeb, 0xea]

/-- `solders.instruction.AccountMeta`. -/
structure AccountMeta where
  pubkey : Pubkey
  is_signer : Bool
  is_writable : Bool
  deriving DecidableEq, Repr

/-- The instructions assembled by the buy/sell paths.  `instruction` models a
raw `solders.instruction.Instruction` whose data is a discriminator followed
by two packed u64 arguments (byte packing itself is not needed by any claim,
so the two integer arguments are kept symbolic). -/
inductive Instr where
  | set_compute_unit_limit (units : ℕ)
  | set_compute_unit_price (microLamports : ℕ)
  | create_idempotent_associated_token_account (payer owner mint tokenProgram : Pubkey)
  | transfer (from_pubkey to_pubkey : Pubkey) (lamports : ℤ)
  | sync_native (tokenProgram account : Pubkey)
  | instruction (program : Pubkey) (discriminator : List ℕ) (arg1 arg2 : ℤ)
      (accounts : List AccountMeta)
  deriving DecidableEq, Repr

namespace PumpFunBuyFixed

/-- `EXPECTED_CURVE_DISCRIMINATOR = struct.pack("<Q", 6966180631402821399)`. -/
def EXPECTED_CURVE_DISCRIMINATOR : List ℕ := pack_u64_le 6966180631402821399

/-- `BUY_DISCRIMINATOR = struct.pack("<Q", 16927863322537952870)`. -/
def BUY_DISCRIMINATOR : List ℕ := pack_u64_le 16927863322537952870

/-- `derive_pump_addresses`, first component: the bonding-curve PDA. -/
def derive_bonding_curve (mint : Pubkey) : Pubkey := .pda1 "bonding-curve" mint PUMP_PROGRAM

/-- `derive_pump_addresses`, second component: the curve's own token account. -/
def derive_associated_bonding_curve (mint : Pubkey) : Pubkey :=
  get_associated_token_address (derive_bonding_curve mint) mint

/-- `find_creator_vault` of `pump_fun_buy_fixed.py`. -/
def find_creator_vault (creator : Pubkey) : Pubkey := .pda1 "creator-vault" creator PUMP_PROGRAM

/-- `find_global_volume_accumulator` of `pump_fun_buy_fixed.py` (pump program). -/
def find_global_volume_accumulator : Pubkey := .pda0 "global_volume_accumulator" PUMP_PROGRAM

/-- `find_user_volume_accumulator` of `pump_fun_buy_fixed.py` (pump program). -/
def find_user_volume_accumulator (user : Pubkey) : Pubkey :=
  .pda1 "user_volume_accumulator" user PUMP_PROGRAM

inductive DecodeError where
  | invalidDiscriminator
  | truncated
  deriving DecidableEq, Repr

/-- The attributes set by `BondingCurveState.__init__` of
`pump_fun_buy_fixed.py`. -/
structure BondingCurveState where
  virtual_token_reserves : ℕ
  virtual_sol_reserves : ℕ
  real_token_reserves : ℕ
  real_sol_reserves : ℕ
  token_total_supply : ℕ
  complete : Bool
  creator : List ℕ
  deriving DecidableEq, Repr

/-- Python `struct.unpack("<Q", data[off:off+8])[0]`: requires the slice to be
exactly 8 bytes, otherwise `struct.error`. -/
def unpack_u64 (data : List ℕ) (off : ℕ) : Except DecodeError ℕ :=
  if off + 8 ≤ data.length then .ok (le_bytes_to_nat (byteSlice data off 8))
  else .error .truncated

/-- Python `data[i]`: `IndexError` when out of range. -/
def byte_at (data : List ℕ) (i : ℕ) : Except DecodeError ℕ :=
  match data.get? i with
  | some b => .ok b
  | none => .error .truncated

/-- `solders.pubkey.Pubkey.from_bytes`: requires exactly 32 bytes. -/
def pubkey_from_bytes (b : List ℕ) : Except DecodeError (List ℕ) :=
  if b.length = 32 then .ok b else .error .truncated

/-- `BondingCurveState.__init__` of `pump_fun_buy_fixed.py` (lines 84-104):
checks the 8-byte leading tag, then walks the fixed layout
(five u64 fields, one bool byte, a 32-byte creator key). -/
def decode_bonding_curve (data : List ℕ) : Except DecodeError BondingCurveState :=
  if data.take 8 ≠ EXPECTED_CURVE_DISCRIMINATOR then .error .invalidDiscriminator
  else do
    let vtr ← unpack_u64 data 8
    let vsr ← unpack_u64 data 16
    let rtr ← unpack_u64 data 24
    let rsr ← unpack_u64 data 32
    let supply ← unpack_u64 data 40
    let completeByte ← byte_at data 48
    let creator ← pubkey_from_bytes (byteSlice data 49 32)
    return ⟨vtr, vsr, rtr, rsr, supply, completeByte != 0, creator⟩

/-- `buy_pump_fun_token` of `pump_fun_buy_fixed.py` (lines 164-179): the
account list of the bonding-curve buy instruction, as a function of the mint,
the trader (payer) and the curve creator.  `TradingBotSDK._buy_token_pumpfun`
(trading_bot_sdk.py lines 757-772) assembles the identical list from the same
constants and derivations. -/
def build_pumpfun_buy_accounts (mint trader creator : Pubkey) : List AccountMeta :=
  let bonding_curve := derive_bonding_curve mint
  let associated_bonding_curve := derive_associated_bonding_curve mint
  let associated_token_account := get_associated_token_address trader mint
  let creator_vault := find_creator_vault creator
  [ ⟨PUMP_GLOBAL, false, false⟩,
    ⟨PUMP_FEE, false, true⟩,
    ⟨mint, false, false⟩,
    ⟨bonding_curve, false, true⟩,
    ⟨associated_bonding_curve, false, true⟩,
    ⟨associated_token_account, false, true⟩,
    ⟨trader, true, true⟩,
    ⟨SYSTEM_PROGRAM, false, false⟩,
    ⟨SYSTEM_TOKEN_PROGRAM, false, false⟩,
    ⟨creator_vault, false, true⟩,
    ⟨PUMP_EVENT_AUTHORITY, false, false⟩,
    ⟨PUMP_PROGRAM, false, false⟩,
    ⟨find_global_volume_accumulator, false, true⟩,
    ⟨find_user_volume_accumulator trader, false, true⟩ ]

end PumpFunBuyFixed

namespace TradingBotSdk

/-- Enumeration `TokenStatus` of `trading_bot_sdk.py`. -/
inductive TokenStatus where
  | PRE_GRADUATION
  | POST_GRADUATION
  deriving DecidableEq, Repr

/-- Enumeration `Platform` of `trading_bot_sdk.py`. -/
inductive Platform where
  | PUMP_FUN
  | LETS_BONK
  deriving DecidableEq, Repr

/-- Dataclass `BondingCurveState` of `trading_bot_sdk.py` (lines 135-143).
Fields are Python `int`s, hence `ℤ`. -/
structure BondingCurveState where
  virtual_token_reserves : ℤ
  virtual_sol_reserves : ℤ
  real_token_reserves : ℤ
  real_sol_reserves : ℤ
  token_total_supply : ℤ
  complete : Bool
  deriving DecidableEq, Repr

/-- The reserve swap used to state that selling mirrors buying. -/
def swapReserves (s : BondingCurveState) : BondingCurveState :=
  { s with
    virtual_token_reserves := s.virtual_sol_reserves
    virtual_sol_reserves := s.virtual_token_reserves }

/-- Python-side failures surfaced by the curve-math functions. -/
inductive PyError where
  | zeroDivision
  | valueError (msg : String)
  deriving DecidableEq, Repr

/-- `TradingBotSDK.calculate_token_price` (lines 429-439): raises
`ValueError("Invalid reserve state")` on non-positive reserves, otherwise
returns the float price, modelled as an exact rational. -/
def calculate_token_price (s : BondingCurveState) : Except PyError ℚ :=
  if s.virtual_token_reserves ≤ 0 ∨ s.virtual_sol_reserves ≤ 0 then
    .error (.valueError "Invalid reserve state")
  else
    .ok (((s.virtual_sol_reserves : ℚ) / 1000000000) / ((s.virtual_token_reserves : ℚ) / 1000000))

/-- `TradingBotSDK.calculate_buy_amount` (lines 441-451), at the lamport level
(the source converts its float SOL argument to lamports first; `sol_lamports`
is that converted integer).  Python `//` is `Int.fdiv`; a zero denominator is
Python's `ZeroDivisionError`. -/
def calculate_buy_amount (s : BondingCurveState) (sol_lamports : ℤ) : Except PyError ℤ :=
  if s.virtual_token_reserves ≤ 0 ∨ s.virtual_sol_reserves ≤ 0 then .ok 0
  else if s.virtual_sol_reserves + sol_lamports = 0 then .error .zeroDivision
  else
    .ok (max 0 ((s.virtual_token_reserves * sol_lamports).fdiv
      (s.virtual_sol_reserves + sol_lamports)))

/-- `TradingBotSDK.calculate_sell_amount` (lines 453-461). -/
def calculate_sell_amount (s : BondingCurveState) (token_amount : ℤ) : Except PyError ℤ :=
  if s.virtual_token_reserves ≤ 0 ∨ s.virtual_sol_reserves ≤ 0 then .ok 0
  else if s.virtual_token_reserves + token_amount = 0 then .error .zeroDivision
  else
    .ok (max 0 ((s.virtual_sol_reserves * token_amount).fdiv
      (s.virtual_token_reserves + token_amount)))

/-- The token amount a successful `calculate_buy_amount` call returns
(0 when the call errored); used to state monotonicity. -/
def buyOut (s : BondingCurveState) (sol_lamports : ℤ) : ℤ :=
  ((calculate_buy_amount s sol_lamports).toOption).getD 0

/-- One account of the `get_program_accounts(PUMP_AMM_PROGRAM_ID)` response:
its raw data bytes.  `TradingBotSDK._get_pumpswap_market_address`
(lines 523-535) treats an account as a match when its data is longer than 75
bytes and bytes 43..74 equal the mint. -/
def pumpswap_market_matches (base_mint data : List ℕ) : Bool :=
  decide (75 < data.length) && decide (byteSlice data 43 32 = base_mint)

/-- `TradingBotSDK._get_pumpswap_market_address` (lines 497-540), abstracted
over the RPC outcome: `none` models any transport failure or timeout of
`get_program_accounts` (every such exception becomes a raised `ValueError`);
`some accounts` is the returned account list.  An empty list raises, a
matching account is returned, and falling through the loop raises. -/
def get_pumpswap_market_address (base_mint : List ℕ)
    (resp : Option (List (List ℕ))) : Except String (List ℕ) :=
  match resp with
  | none => .error "Failed to search PumpSwap markets"
  | some accounts =>
    if accounts.isEmpty then
      .error "Failed to search PumpSwap markets: No AMM accounts returned from RPC"
    else
      match accounts.find? (pumpswap_market_matches base_mint) with
      | some a => .ok a
      | none => .error "No PumpSwap market found for this token"

/-- `TradingBotSDK.get_token_status` (lines 468-495), abstracted over the two
remote probes: `curveFetch = none` models any exception while deriving or
fetching the bonding-curve state; `curveFetch = some d` is the fetched curve
dict, where `d` is the value of its optional `complete` key
(`curve_data.get("complete", False)` supplies `false` when absent).
`poolResp` feeds the fallback pool-market search. -/
def get_token_status (curveFetch : Option (Option Bool))
    (poolResp : Option (List (List ℕ))) (mint : List ℕ) : TokenStatus :=
  match curveFetch with
  | some curve_data =>
    if curve_data.getD false then .POST_GRADUATION else .PRE_GRADUATION
  | none =>
    match get_pumpswap_market_address mint poolResp with
    | .ok _ => .POST_GRADUATION
    | .error _ => .PRE_GRADUATION

/-- Modelled from the claim wording of C1 (no account-size condition): a pool
account matches when its 32 bytes at offset 43 equal the mint. -/
def spec_market_match (base_mint data : List ℕ) : Bool :=
  decide (byteSlice data 43 32 = base_mint)

/-- The classification exactly as claim C1 words it: curve fetched → its
`complete` flag decides; curve not fetched → any pool account whose embedded
base-mint field (32 bytes at offset 43) equals the mint gives PostGraduation,
and a search that fails for any reason gives PreGraduation. -/
def spec_get_token_status_claim (curveFetch : Option (Option Bool))
    (poolResp : Option (List (List ℕ))) (mint : List ℕ) : TokenStatus :=
  match curveFetch with
  | some curve_data =>
    if curve_data.getD false = false then .PRE_GRADUATION else .POST_GRADUATION
  | none =>
    match poolResp with
    | some accounts =>
      if accounts.any (spec_market_match mint) then .POST_GRADUATION else .PRE_GRADUATION
    | none => .PRE_GRADUATION

/-- Claim C1 amended by the account-size guard the source applies: only
accounts with more than 75 bytes of data are considered by the fallback
search. -/
def spec_get_token_status_amended (curveFetch : Option (Option Bool))
    (poolResp : Option (List (List ℕ))) (mint : List ℕ) : TokenStatus :=
  match curveFetch with
  | some curve_data =>
    if curve_data.getD false = false then .PRE_GRADUATION else .POST_GRADUATION
  | none =>
    match poolResp with
    | some accounts =>
      if accounts.any (pumpswap_market_matches mint) then .POST_GRADUATION
      else .PRE_GRADUATION
    | none => .PRE_GRADUATION

/-- The inline curve parse of `TradingBotSDK._buy_token_pumpfun`
(trading_bot_sdk.py lines 707-740): it extracts the creator key
(`data[49:81]`, which `Pubkey.from_bytes` requires to be exactly 32 bytes),
the virtual reserves (`int.from_bytes(data[8:16] / data[16:24], 'little')`,
total on any slice length) and rejects non-positive reserves — all without
ever comparing the leading 8-byte tag. -/
def parse_curve_inline (data : List ℕ) : Except String (ℕ × ℕ × List ℕ) :=
  if (byteSlice data 49 32).length = 32 then
    let creator := byteSlice data 49 32
    let virtual_token_reserves := le_bytes_to_nat (byteSlice data 8 8)
    let virtual_sol_reserves := le_bytes_to_nat (byteSlice data 16 8)
    if virtual_token_reserves = 0 ∨ virtual_sol_reserves = 0 then
      .error "Invalid bonding curve reserves"
    else
      .ok (virtual_token_reserves, virtual_sol_reserves, creator)
  else .error "Pubkey.from_bytes requires 32 bytes"

/-- `max_amount_lamports = int(amount_lamports * (1 + slippage))` — the
slippage bound the buy path packs into the instruction payload
(trading_bot_sdk.py lines 753-754; identically pump_fun_buy_fixed.py
lines 160-161). -/
def buy_max_amount_lamports (amount_lamports : ℤ) (slippage : ℚ) : ℤ :=
  pyInt ((amount_lamports : ℚ) * (1 + slippage))

/-- `min_sol_output = int((expected_sol_output * (1 - slippage)) * 1e9)` —
the slippage bound the PumpSwap sell path packs into the instruction payload
(trading_bot_sdk.py lines 1153-1155).  `expected_sol_output` is in SOL. -/
def sell_min_sol_output (expected_sol_output : ℚ) (slippage : ℚ) : ℤ :=
  pyInt ((expected_sol_output * (1 - slippage)) * 1000000000)

/-- `TradingBotSDK._find_coin_creator_vault` (pump AMM program). -/
def find_coin_creator_vault (coin_creator : Pubkey) : Pubkey :=
  .pda1 "creator_vault" coin_creator PUMP_AMM_PROGRAM_ID

/-- `TradingBotSDK._find_global_volume_accumulator` (pump AMM program). -/
def find_global_volume_accumulator : Pubkey :=
  .pda0 "global_volume_accumulator" PUMP_AMM_PROGRAM_ID

/-- `TradingBotSDK._find_user_volume_accumulator` (pump AMM program). -/
def find_user_volume_accumulator (user : Pubkey) : Pubkey :=
  .pda1 "user_volume_accumulator" user PUMP_AMM_PROGRAM_ID

/-- `TradingBotSDK._buy_pump_swap_token` (lines 913-935): the account list of
the PumpSwap buy instruction. -/
def build_pumpswap_buy_accounts (market_address payer base_mint
    pool_base_token_account pool_quote_token_account
    coin_creator_vault_authority coin_creator_vault_ata : Pubkey) :
    List AccountMeta :=
  let user_base_token_account := get_associated_token_address payer base_mint
  let user_quote_token_account := get_associated_token_address payer SOL_MINT
  [ ⟨market_address, false, false⟩,
    ⟨payer, true, true⟩,
    ⟨PUMP_SWAP_GLOBAL_CONFIG, false, false⟩,
    ⟨base_mint, false, false⟩,
    ⟨SOL_MINT, false, false⟩,
    ⟨user_base_token_account, false, true⟩,
    ⟨user_quote_token_account, false, true⟩,
    ⟨pool_base_token_account, false, true⟩,
    ⟨pool_quote_token_account, false, true⟩,
    ⟨PUMP_PROTOCOL_FEE_RECIPIENT, false, false⟩,
    ⟨PUMP_PROTOCOL_FEE_RECIPIENT_TOKEN_ACCOUNT, false, true⟩,
    ⟨SYSTEM_TOKEN_PROGRAM, false, false⟩,
    ⟨SYSTEM_TOKEN_PROGRAM, false, false⟩,
    ⟨SYSTEM_PROGRAM, false, false⟩,
    ⟨SYSTEM_ASSOCIATED_TOKEN_ACCOUNT_PROGRAM, false, false⟩,
    ⟨PUMP_SWAP_EVENT_AUTHORITY, false, false⟩,
    ⟨PUMP_AMM_PROGRAM_ID, false, false⟩,
    ⟨coin_creator_vault_ata, false, true⟩,
    ⟨coin_creator_vault_authority, false, false⟩,
    ⟨find_global_volume_accumulator, false, true⟩,
    ⟨find_user_volume_accumulator payer, false, true⟩ ]

/-- `TradingBotSDK._buy_pump_swap_token` (lines 896-988): the ordered
instruction list of the PumpSwap (post-graduation) buy transaction.
`token_price_sol` is the pool price fetched by `_calculate_pumpswap_price`;
floats are modelled as exact rationals.  The source computes
`wrap_amount = int((sol_amount_to_spend + sol_amount_to_spend * 0.1) * 1e9)`
and wires the instructions in exactly this order (line 985). -/
def build_pumpswap_buy_instructions (market_address payer base_mint
    pool_base_token_account pool_quote_token_account
    coin_creator_vault_authority coin_creator_vault_ata : Pubkey)
    (sol_amount_to_spend slippage token_price_sol : ℚ) : List Instr :=
  let base_amount_out : ℤ := pyInt ((sol_amount_to_spend / token_price_sol) * 1000000)
  let slippage_factor : ℚ := 1 + slippage
  let max_sol_input : ℤ := pyInt ((sol_amount_to_spend * slippage_factor) * 1000000000)
  let user_quote_token_account := get_associated_token_address payer SOL_MINT
  let accounts := build_pumpswap_buy_accounts market_address payer base_mint
    pool_base_token_account pool_quote_token_account
    coin_creator_vault_authority coin_creator_vault_ata
  let pump_protocol_fees := sol_amount_to_spend * (1 / 10)
  let wrap_amount : ℤ := pyInt ((sol_amount_to_spend + pump_protocol_fees) * 1000000000)
  [ .set_compute_unit_limit 200000,
    .set_compute_unit_price 10000,
    .create_idempotent_associated_token_account payer payer SOL_MINT SYSTEM_TOKEN_PROGRAM,
    .transfer payer user_quote_token_account wrap_amount,
    .sync_native SYSTEM_TOKEN_PROGRAM user_quote_token_account,
    .create_idempotent_associated_token_account payer payer base_mint SYSTEM_TOKEN_PROGRAM,
    .instruction PUMP_AMM_PROGRAM_ID PUMPSWAP_BUY_DISCRIMINATOR base_amount_out
      max_sol_input accounts ]

/-- Dataclass `TokenInfo` of `trading_bot_sdk.py` (lines 100-113). -/
structure TokenInfo where
  name : String
  symbol : String
  description : String
  mint : String
  creator : String
  uri : String
  platform : Platform
  market_cap_sol : Option ℚ := none
  created_timestamp : Option ℤ := none
  bonding_curve : Option String := none
  associated_bonding_curve : Option String := none
  deriving DecidableEq, Repr

/-- Dataclass `Position` of `trading_bot_sdk.py` (lines 178-188).  Times are
rationals (seconds). -/
structure Position where
  token_info : TokenInfo
  tokens_owned : ℤ
  sol_invested : ℚ
  entry_price : ℚ
  entry_time : ℚ
  take_profit : Option ℚ := none
  stop_loss : Option ℚ := none
  max_hold_time : Option ℚ := none
  deriving DecidableEq, Repr

/-- Python truthiness of an optional float threshold: `None` and `0.0` are
falsy, as in `if self.take_profit and ...`; the guarded comparison `f` runs
only for a truthy threshold. -/
def pyTruthyGate (o : Option ℚ) (f : ℚ → Bool) : Bool :=
  match o with
  | none => false
  | some x => decide (x ≠ 0) && f x

/-- The take-profit condition of `Position.should_exit`:
`self.take_profit and current_price >= self.take_profit`. -/
def take_profit_hit (p : Position) (current_price : ℚ) : Bool :=
  pyTruthyGate p.take_profit fun tp => decide (tp ≤ current_price)

/-- The stop-loss condition of `Position.should_exit`:
`self.stop_loss and current_price <= self.stop_loss`. -/
def stop_loss_hit (p : Position) (current_price : ℚ) : Bool :=
  pyTruthyGate p.stop_loss fun sl => decide (current_price ≤ sl)

/-- The time-based condition of `Position.should_exit`:
`self.max_hold_time and time.time() - self.entry_time > self.max_hold_time`;
`now` stands for `time.time()`. -/
def max_hold_time_hit (p : Position) (now : ℚ) : Bool :=
  pyTruthyGate p.max_hold_time fun m => decide (m < now - p.entry_time)

/-- `Position.should_exit` (trading_bot_sdk.py lines 195-211). -/
def should_exit (p : Position) (current_price : ℚ) (now : ℚ) : Bool × String :=
  if take_profit_hit p current_price then (true, "take_profit")
  else if stop_loss_hit p current_price then (true, "stop_loss")
  else if max_hold_time_hit p now then (true, "max_hold_time")
  else (false, "")

/-- Dataclass `TradeResult` of `trading_bot_sdk.py` (lines 152-162). -/
structure TradeResult where
  success : Bool
  signature : Option String := none
  error : Option String := none
  tokens_bought : Option ℤ := none
  tokens_sold : Option ℤ := none
  sol_spent : Option ℚ := none
  sol_received : Option ℚ := none
  price : Option ℚ := none
  deriving DecidableEq, Repr

/-- Python truthiness of `Optional[int]`: `None` and `0` are falsy. -/
def optIntTruthy (o : Option ℤ) : Bool :=
  match o with
  | none => false
  | some n => decide (n ≠ 0)

/-- Python truthiness of `Optional[float]`: `None` and `0.0` are falsy. -/
def optRatTruthy (o : Option ℚ) : Bool :=
  match o with
  | none => false
  | some x => decide (x ≠ 0)

/-- The position ledger persisted through `buy.json`, as the mint-keyed map
it represents. -/
def Ledger : Type := String → Option Position

/-- `TradingBotSDK.save_buy_position` (lines 1320-1362): loads the ledger,
binds `positions[mint]` to a fresh position with a minimal `TokenInfo`, and
stores the result. -/
def save_buy_position (positions : Ledger) (mint : String) (tokens_bought : ℤ)
    (sol_spent entry_price now : ℚ) : Ledger :=
  let token_info : TokenInfo :=
    { name := "Unknown", symbol := "UNK", description := "", mint := mint,
      creator := "", uri := "", platform := .PUMP_FUN }
  let position : Position :=
    { token_info := token_info, tokens_owned := tokens_bought,
      sol_invested := sol_spent, entry_price := entry_price, entry_time := now }
  fun m => if m = mint then some position else positions m

/-- The ledger update performed by `TradingBotSDK.buy_token` (lines 652-661):
a position is saved only when `result.success and result.tokens_bought and
result.sol_spent` are all truthy, with
`entry_price = result.sol_spent / (result.tokens_bought / 10**6)`. -/
def buy_token_position_update (positions : Ledger) (mint : String)
    (result : TradeResult) (now : ℚ) : Ledger :=
  if result.success && optIntTruthy result.tokens_bought
      && optRatTruthy result.sol_spent then
    let tokens_bought := result.tokens_bought.getD 0
    let sol_spent := result.sol_spent.getD 0
    let entry_price := sol_spent / ((tokens_bought : ℚ) / 1000000)
    save_buy_position positions mint tokens_bought sol_spent entry_price now
  else positions

/-- The `TradeResult` a successful `TradingBotSDK._buy_token_pumpswap`
returns (line 876): `TradeResult(success=True, signature=tx_hash)` — the
amount fields keep their `None` defaults. -/
def pumpswap_buy_success_result (tx_hash : String) : TradeResult :=
  { success := true, signature := some tx_hash }

/-- The `TradeResult` a successful `TradingBotSDK._buy_token_pumpfun`
returns (lines 816-821). -/
def pumpfun_buy_success_result (tx_hash : String) (tokens_bought : ℤ)
    (sol_spent : ℚ) : TradeResult :=
  { success := true, signature := some tx_hash,
    tokens_bought := some tokens_bought, sol_spent := some sol_spent }

end TradingBotSdk

/-- The golden account order claim C4 states for the bonding-curve buy
instruction, written from the claim's enumeration. -/
def spec_pumpfun_buy_account_order (mint trader creator : Pubkey) : List Pubkey :=
  [ PUMP_GLOBAL,
    PUMP_FEE,
    mint,
    PumpFunBuyFixed.derive_bonding_curve mint,
    get_associated_token_address (PumpFunBuyFixed.derive_bonding_curve mint) mint,
    get_associated_token_address trader mint,
    trader,
    SYSTEM_PROGRAM,
    SYSTEM_TOKEN_PROGRAM,
    PumpFunBuyFixed.find_creator_vault creator,
    PUMP_EVENT_AUTHORITY,
    PUMP_PROGRAM,
    PumpFunBuyFixed.find_global_volume_accumulator,
    PumpFunBuyFixed.find_user_volume_accumulator trader ]

/-! Helper lemmas shared by the claim theorems. -/

/-- Python floor division with a positive divisor is the rational floor. -/
theorem int_fdiv_eq_rat_floor (a b : ℤ) (hb : 0 < b) :
    a.fdiv b = ⌊(a : ℚ) / (b : ℚ)⌋ := by
  rw [Int.fdiv_eq_ediv _ hb.le]
  obtain ⟨d, rfl⟩ : ∃ d : ℕ, b = (d : ℤ) := ⟨b.toNat, (Int.toNat_of_nonneg hb.le).symm⟩
  rw [Int.cast_natCast]
  exact (Rat.floor_intCast_div_natCast a d).symm

/-- Under positive reserves and a non-negative quote input,
`calculate_buy_amount` succeeds with the euclidean quotient. -/
theorem buyOut_eq_ediv (s : TradingBotSdk.BondingCurveState) (q : ℤ)
    (hT : 0 < s.virtual_token_reserves) (hS : 0 < s.virtual_sol_reserves)
    (hq : 0 ≤ q) :
    TradingBotSdk.buyOut s q =
      (s.virtual_token_reserves * q) / (s.virtual_sol_reserves + q) := by
  unfold TradingBotSdk.buyOut TradingBotSdk.calculate_buy_amount
  rw [if_neg (by omega), if_neg (by omega)]
  simp only [Except.toOption, Option.getD_some]
  rw [Int.fdiv_eq_ediv _ (by omega : (0 : ℤ) ≤ s.virtual_sol_reserves + q)]
  exact max_eq_right (Int.ediv_nonneg (mul_nonneg hT.le hq) (by omega))

/-- C2.  For every curve snapshot with positive virtual reserves and every
non-negative quote input `q` in lamports, `calculate_buy_amount` returns
exactly the floor of `virtual_token_reserves * q / (virtual_sol_reserves + q)`,
the result is never negative, and `calculate_sell_amount` is the structural
mirror of `calculate_buy_amount` with the two reserves swapped. -/
theorem claim_C2_buy_floor_sell_mirror (s : TradingBotSdk.BondingCurveState)
    (q : ℤ) (hT : 0 < s.virtual_token_reserves) (hS : 0 < s.virtual_sol_reserves)
    (hq : 0 ≤ q) :
    TradingBotSdk.calculate_buy_amount s q =
      .ok ⌊((s.virtual_token_reserves * q : ℤ) : ℚ) /
          ((s.virtual_sol_reserves + q : ℤ) : ℚ)⌋ ∧
    0 ≤ ⌊((s.virtual_token_reserves * q : ℤ) : ℚ) /
        ((s.virtual_sol_reserves + q : ℤ) : ℚ)⌋ ∧
    ∀ (s₂ : TradingBotSdk.BondingCurveState) (t : ℤ),
      TradingBotSdk.calculate_sell_amount s₂ t =
        TradingBotSdk.calculate_buy_amount (TradingBotSdk.swapReserves s₂) t := by
  have hbpos : (0 : ℤ) < s.virtual_sol_reserves + q := by omega
  have hfl : (s.virtual_token_reserves * q).fdiv (s.virtual_sol_reserves + q) =
      ⌊((s.virtual_token_reserves * q : ℤ) : ℚ) /
        ((s.virtual_sol_reserves + q : ℤ) : ℚ)⌋ :=
    int_fdiv_eq_rat_floor _ _ hbpos
  have hnn : 0 ≤ (s.virtual_token_reserves * q).fdiv (s.virtual_sol_reserves + q) :=
    Int.fdiv_nonneg (mul_nonneg hT.le hq) hbpos.le
  refine ⟨?_, ?_, ?_⟩
  · unfold TradingBotSdk.calculate_buy_amount
    rw [if_neg (by omega), if_neg (by omega), max_eq_right hnn, hfl]
  · rw [← hfl]; exact hnn
  · intro s₂ t
    simp only [TradingBotSdk.calculate_sell_amount, TradingBotSdk.calculate_buy_amount,
      TradingBotSdk.swapReserves]
    split_ifs <;> first | rfl | tauto

/-- C9.  For every snapshot with positive virtual reserves,
`calculate_buy_amount` is monotone in the quote input and its value stays
strictly below the virtual token reserves. -/
theorem claim_C9_monotone_bounded (s : TradingBotSdk.BondingCurveState)
    (q₁ q₂ : ℤ) (hT : 0 < s.virtual_token_reserves)
    (hS : 0 < s.virtual_sol_reserves) (h0 : 0 ≤ q₁) (h12 : q₁ ≤ q₂) :
    TradingBotSdk.buyOut s q₁ ≤ TradingBotSdk.buyOut s q₂ ∧
    TradingBotSdk.buyOut s q₂ < s.virtual_token_reserves := by
  have e1 := buyOut_eq_ediv s q₁ hT hS h0
  have e2 := buyOut_eq_ediv s q₂ hT hS (le_trans h0 h12)
  constructor
  · rw [e1, e2, Int.le_ediv_iff_mul_le (by omega)]
    have hx : s.virtual_token_reserves * q₁ / (s.virtual_sol_reserves + q₁) *
        (s.virtual_sol_reserves + q₁) ≤ s.virtual_token_reserves * q₁ :=
      Int.ediv_mul_le _ (by omega)
    have hxT : s.virtual_token_reserves * q₁ / (s.virtual_sol_reserves + q₁) ≤
        s.virtual_token_reserves :=
      Int.ediv_le_of_le_mul (by omega) (by nlinarith)
    nlinarith [hx, hxT]
  · rw [e2]
    exact Int.ediv_lt_of_lt_mul (by omega) (by nlinarith)

/-- Witness for C9 at a realistic fresh-curve snapshot. -/
theorem claim_C9_witness :
    TradingBotSdk.buyOut ⟨1073000000000000, 30000000000, 0, 0, 0, false⟩ 500000000 ≤
      TradingBotSdk.buyOut ⟨1073000000000000, 30000000000, 0, 0, 0, false⟩ 1000000000 ∧
    TradingBotSdk.buyOut ⟨1073000000000000, 30000000000, 0, 0, 0, false⟩ 1000000000 <
      1073000000000000 :=
  claim_C9_monotone_bounded ⟨1073000000000000, 30000000000, 0, 0, 0, false⟩
    500000000 1000000000 (by decide) (by decide) (by decide) (by decide)

/-- Witness for C2 at the same snapshot. -/
theorem claim_C2_witness :
    TradingBotSdk.calculate_buy_amount ⟨1073000000000000, 30000000000, 0, 0, 0, false⟩
        1000000000 =
      .ok ⌊((1073000000000000 * 1000000000 : ℤ) : ℚ) /
          ((30000000000 + 1000000000 : ℤ) : ℚ)⌋ :=
  (claim_C2_buy_floor_sell_mirror ⟨1073000000000000, 30000000000, 0, 0, 0, false⟩
    1000000000 (by decide) (by decide) (by decide)).1

/-- C10 counterexample: with positive reserves, the quote input
`-1_000_000_000` lamports (i.e. `sol_amount = -1.0`, converted by
`int(sol_amount * 1e9)`) makes the denominator `virtual_sol_reserves +
sol_lamports` zero, so `calculate_buy_amount` raises `ZeroDivisionError`
instead of returning a value — refuting "total and never raise for every
input". -/
theorem claim_C10_counterexample :
    TradingBotSdk.calculate_buy_amount ⟨1, 1000000000, 0, 0, 0, false⟩
        (-1000000000) = .error .zeroDivision := by
  rfl

/-- C10 amended.  `calculate_buy_amount` and `calculate_sell_amount` return
`0` (without raising) on any snapshot with a non-positive virtual reserve;
for every non-negative trade input they are total and their result is a
non-negative integer; and `calculate_token_price` raises `ValueError` on
non-positive reserves.  (Totality does not extend to negative inputs: see
the counterexample.) -/
theorem claim_C10_totality_amended :
    (∀ (s : TradingBotSdk.BondingCurveState) (q : ℤ),
      s.virtual_token_reserves ≤ 0 ∨ s.virtual_sol_reserves ≤ 0 →
      TradingBotSdk.calculate_buy_amount s q = .ok 0 ∧
      TradingBotSdk.calculate_sell_amount s q = .ok 0) ∧
    (∀ (s : TradingBotSdk.BondingCurveState) (q : ℤ), 0 ≤ q →
      ∃ v, 0 ≤ v ∧ TradingBotSdk.calculate_buy_amount s q = .ok v) ∧
    (∀ (s : TradingBotSdk.BondingCurveState) (t : ℤ), 0 ≤ t →
      ∃ v, 0 ≤ v ∧ TradingBotSdk.calculate_sell_amount s t = .ok v) ∧
    (∀ s : TradingBotSdk.BondingCurveState,
      s.virtual_token_reserves ≤ 0 ∨ s.virtual_sol_reserves ≤ 0 →
      TradingBotSdk.calculate_token_price s =
        .error (.valueError "Invalid reserve state")) := by
  refine ⟨?_, ?_, ?_, ?_⟩
  · intro s q h
    constructor <;>
      simp only [TradingBotSdk.calculate_buy_amount,
        TradingBotSdk.calculate_sell_amount, if_pos h]
  · intro s q hq
    by_cases h : s.virtual_token_reserves ≤ 0 ∨ s.virtual_sol_reserves ≤ 0
    · exact ⟨0, le_refl 0, by simp only [TradingBotSdk.calculate_buy_amount, if_pos h]⟩
    · refine ⟨max 0 ((s.virtual_token_reserves * q).fdiv (s.virtual_sol_reserves + q)),
        le_max_left _ _, ?_⟩
      have hd : ¬(s.virtual_sol_reserves + q = 0) := by omega
      simp only [TradingBotSdk.calculate_buy_amount, if_neg h, if_neg hd]
  · intro s t ht
    by_cases h : s.virtual_token_reserves ≤ 0 ∨ s.virtual_sol_reserves ≤ 0
    · exact ⟨0, le_refl 0, by simp only [TradingBotSdk.calculate_sell_amount, if_pos h]⟩
    · refine ⟨max 0 ((s.virtual_sol_reserves * t).fdiv (s.virtual_token_reserves + t)),
        le_max_left _ _, ?_⟩
      have hd : ¬(s.virtual_token_reserves + t = 0) := by omega
      simp only [TradingBotSdk.calculate_sell_amount, if_neg h, if_neg hd]
  · intro s h
    simp only [TradingBotSdk.calculate_token_price, if_pos h]

/-- Witness for C10 amended: zero reserves yield 0, a non-negative input
yields a non-negative token amount, and zero reserves make the price raise. -/
theorem claim_C10_witness :
    (TradingBotSdk.calculate_buy_amount ⟨0, 0, 0, 0, 0, false⟩ 5 = .ok 0 ∧
      TradingBotSdk.calculate_sell_amount ⟨0, 0, 0, 0, 0, false⟩ 5 = .ok 0) ∧
    (∃ v, 0 ≤ v ∧
      TradingBotSdk.calculate_buy_amount ⟨100, 100, 0, 0, 0, false⟩ 7 = .ok v) ∧
    TradingBotSdk.calculate_token_price ⟨0, 0, 0, 0, 0, false⟩ =
      .error (.valueError "Invalid reserve state") :=
  ⟨claim_C10_totality_amended.1 ⟨0, 0, 0, 0, 0, false⟩ 5 (by decide),
   claim_C10_totality_amended.2.1 ⟨100, 100, 0, 0, 0, false⟩ 7 (by decide),
   claim_C10_totality_amended.2.2.2 ⟨0, 0, 0, 0, 0, false⟩ (by decide)⟩

/-- C3 counterexample: at `amount_lamports = 1` and `slippage = 0.5` (both
exactly representable floats) the buy path packs
`int(1 * 1.5) = 1`, while the claimed `ceil(1 * 1.5)` is `2` — the code
truncates, it does not take the ceiling. -/
theorem claim_C3_counterexample :
    TradingBotSdk.buy_max_amount_lamports 1 (1 / 2) = 1 ∧
    ⌈((1 : ℤ) : ℚ) * (1 + 1 / 2)⌉ = 2 ∧
    TradingBotSdk.buy_max_amount_lamports 1 (1 / 2) ≠ ⌈((1 : ℤ) : ℚ) * (1 + 1 / 2)⌉ := by
  have h1 : TradingBotSdk.buy_max_amount_lamports 1 (1 / 2) = 1 := by
    unfold TradingBotSdk.buy_max_amount_lamports pyInt
    rw [if_pos (by norm_num)]
    rw [Int.floor_eq_iff]
    constructor <;> norm_num
  have h2 : ⌈((1 : ℤ) : ℚ) * (1 + 1 / 2)⌉ = (2 : ℤ) := by
    rw [Int.ceil_eq_iff]
    constructor <;> norm_num
  exact ⟨h1, h2, by rw [h1, h2]; decide⟩

/-- C3 amended.  For non-negative inputs the buy path encodes
`floor(intended_quote_in * (1 + slippage))` (truncation, not the ceiling) as
the maximum quote input, and the sell path encodes
`floor(expected_quote_out_sol * (1 - slippage) * 1e9)` lamports as the
minimum quote output, exactly as the claim states for the sell side. -/
theorem claim_C3_slippage_amended :
    (∀ (q : ℤ) (s : ℚ), 0 ≤ q → 0 ≤ s →
      TradingBotSdk.buy_max_amount_lamports q s = ⌊(q : ℚ) * (1 + s)⌋) ∧
    (∀ (e s : ℚ), 0 ≤ e → s ≤ 1 →
      TradingBotSdk.sell_min_sol_output e s = ⌊(e * (1 - s)) * 1000000000⌋) := by
  constructor
  · intro q s hq hs
    unfold TradingBotSdk.buy_max_amount_lamports pyInt
    rw [if_pos]
    exact mul_nonneg (by exact_mod_cast hq) (by linarith)
  · intro e s he hs
    unfold TradingBotSdk.sell_min_sol_output pyInt
    rw [if_pos]
    exact mul_nonneg (mul_nonneg he (by linarith)) (by norm_num)

/-- Witness for C3 amended at integral inputs. -/
theorem claim_C3_amended_witness :
    TradingBotSdk.buy_max_amount_lamports 3 1 = ⌊((3 : ℤ) : ℚ) * (1 + 1)⌋ ∧
    TradingBotSdk.sell_min_sol_output 2 1 = ⌊((2 : ℚ) * (1 - 1)) * 1000000000⌋ :=
  ⟨claim_C3_slippage_amended.1 3 1 (by decide) (by decide),
   claim_C3_slippage_amended.2 2 1 (by decide) (by decide)⟩

/-- C1 counterexample: with the curve fetch failing and the pool scan
returning a single 75-byte account whose 32 bytes at offset 43 equal the
mint, the claim's classification says PostGraduation (the embedded base-mint
field matches), but `get_token_status` skips every account of at most 75
bytes (`len(data) > 75`) and returns PreGraduation. -/
theorem claim_C1_counterexample :
    TradingBotSdk.get_token_status none
        (some [List.replicate 43 0 ++ List.replicate 32 7]) (List.replicate 32 7) ≠
      TradingBotSdk.spec_get_token_status_claim none
        (some [List.replicate 43 0 ++ List.replicate 32 7]) (List.replicate 32 7) := by
  decide

/-- C1 amended.  `get_token_status` classifies exactly as the claim states,
with the fallback search restricted to pool accounts of more than 75 data
bytes: curve fetched and `complete` true gives PostGraduation, fetched and
`complete` false (or absent) gives PreGraduation, a failed fetch falls back
to the pool scan whose match gives PostGraduation, and any failure of that
scan gives PreGraduation. -/
theorem claim_C1_classification_amended :
    ∀ (curveFetch : Option (Option Bool)) (poolResp : Option (List (List ℕ)))
      (mint : List ℕ),
      TradingBotSdk.get_token_status curveFetch poolResp mint =
        TradingBotSdk.spec_get_token_status_amended curveFetch poolResp mint := by
  intro curveFetch poolResp mint
  cases curveFetch with
  | some d =>
    simp only [TradingBotSdk.get_token_status, TradingBotSdk.spec_get_token_status_amended]
    cases hd : d.getD false <;> simp [hd]
  | none =>
    cases poolResp with
    | none => rfl
    | some accounts =>
      simp only [TradingBotSdk.get_token_status,
        TradingBotSdk.spec_get_token_status_amended,
        TradingBotSdk.get_pumpswap_market_address]
      by_cases he : accounts.isEmpty
      · have : accounts = [] := List.isEmpty_iff.mp he
        subst this
        simp
      · rw [if_neg he]
        cases hf : accounts.find? (TradingBotSdk.pumpswap_market_matches mint) with
        | some a =>
          have ha : accounts.any (TradingBotSdk.pumpswap_market_matches mint) = true :=
            List.any_eq_true.mpr ⟨a, List.mem_of_find?_eq_some hf, List.find?_some hf⟩
          simp [ha]
        | none =>
          have ha : accounts.any (TradingBotSdk.pumpswap_market_matches mint) = false :=
            List.any_eq_false.mpr (fun x hx => by
              simpa using List.find?_eq_none.mp hf x hx)
          simp [ha]

/-- C4.  The bonding-curve buy instruction emits exactly the fourteen
accounts of the claim, in the claimed order, with the trader the only
signer and the writability flags of the source, for every mint, trader and
creator. -/
theorem claim_C4_account_order :
    ∀ mint trader creator : Pubkey,
      (PumpFunBuyFixed.build_pumpfun_buy_accounts mint trader creator).map
          AccountMeta.pubkey =
        spec_pumpfun_buy_account_order mint trader creator ∧
      (PumpFunBuyFixed.build_pumpfun_buy_accounts mint trader creator).length = 14 ∧
      (PumpFunBuyFixed.build_pumpfun_buy_accounts mint trader creator).map
          AccountMeta.is_signer =
        [false, false, false, false, false, false, true,
          false, false, false, false, false, false, false] ∧
      (PumpFunBuyFixed.build_pumpfun_buy_accounts mint trader creator).map
          AccountMeta.is_writable =
        [false, true, false, true, true, true, true,
          false, false, true, false, false, true, true] := by
  intro mint trader creator
  exact ⟨rfl, rfl, rfl, rfl⟩

/-- C5.  The PumpSwap (post-graduation) buy transaction assembles, after the
two compute-budget instructions, exactly: idempotent creation of the
trader's wrapped-SOL account, a native transfer into it of
`int((spend + 10% of spend) * 1e9)` lamports, a sync-native on that account,
idempotent creation of the trader's base-token account, and the trade
instruction — in this order. -/
theorem claim_C5_pumpswap_buy_sequence :
    ∀ (market_address payer base_mint pool_base_token_account
        pool_quote_token_account coin_creator_vault_authority
        coin_creator_vault_ata : Pubkey)
      (sol_amount_to_spend slippage token_price_sol : ℚ),
      TradingBotSdk.build_pumpswap_buy_instructions market_address payer base_mint
          pool_base_token_account pool_quote_token_account
          coin_creator_vault_authority coin_creator_vault_ata
          sol_amount_to_spend slippage token_price_sol =
        [ .set_compute_unit_limit 200000,
          .set_compute_unit_price 10000,
          .create_idempotent_associated_token_account payer payer SOL_MINT
            SYSTEM_TOKEN_PROGRAM,
          .transfer payer (get_associated_token_address payer SOL_MINT)
            (pyInt ((sol_amount_to_spend * (11 / 10)) * 1000000000)),
          .sync_native SYSTEM_TOKEN_PROGRAM
            (get_associated_token_address payer SOL_MINT),
          .create_idempotent_associated_token_account payer payer base_mint
            SYSTEM_TOKEN_PROGRAM,
          .instruction PUMP_AMM_PROGRAM_ID PUMPSWAP_BUY_DISCRIMINATOR
            (pyInt ((sol_amount_to_spend / token_price_sol) * 1000000))
            (pyInt ((sol_amount_to_spend * (1 + slippage)) * 1000000000))
            (TradingBotSdk.build_pumpswap_buy_accounts market_address payer
              base_mint pool_base_token_account pool_quote_token_account
              coin_creator_vault_authority coin_creator_vault_ata) ] := by
  intro market_address payer base_mint pb pq va vata spend slip price
  have h : spend + spend * (1 / 10 : ℚ) = spend * (11 / 10) := by ring
  simp only [TradingBotSdk.build_pumpswap_buy_instructions, h]

/-- C6 counterexample: an 89-byte buffer whose leading tag is eight zero
bytes (which differs from the expected curve discriminator) is happily
parsed by the inline curve reader of `_buy_token_pumpfun`, which returns
reserves and a creator key without any tag check — so not every decoder of
a curve buffer rejects a wrong tag. -/
theorem claim_C6_counterexample :
    ((List.replicate 8 0 ++ pack_u64_le 1 ++ pack_u64_le 1 ++
        List.replicate 65 0).take 8 ≠ PumpFunBuyFixed.EXPECTED_CURVE_DISCRIMINATOR) ∧
    TradingBotSdk.parse_curve_inline
        (List.replicate 8 0 ++ pack_u64_le 1 ++ pack_u64_le 1 ++ List.replicate 65 0) =
      .ok (1, 1, List.replicate 32 0) := by
  decide

/-- C6 amended.  The `BondingCurveState` decoder of `pump_fun_buy_fixed.py`
rejects every buffer whose leading 8-byte tag differs from the expected
curve discriminator with a decode error; the inline parse of
`_buy_token_pumpfun`, however, never checks the tag (counterexample above). -/
theorem claim_C6_decode_rejects_amended :
    ∀ data : List ℕ,
      data.take 8 ≠ PumpFunBuyFixed.EXPECTED_CURVE_DISCRIMINATOR →
      PumpFunBuyFixed.decode_bonding_curve data =
        .error .invalidDiscriminator := by
  intro data h
  unfold PumpFunBuyFixed.decode_bonding_curve
  rw [if_pos h]

/-- Witness for C6 amended: an all-zero 89-byte buffer is rejected. -/
theorem claim_C6_amended_witness :
    PumpFunBuyFixed.decode_bonding_curve (List.replicate 89 0) =
      .error .invalidDiscriminator :=
  claim_C6_decode_rejects_amended (List.replicate 89 0) (by decide)

/-- C7.  `should_exit` checks its three conditions in the fixed order
take-profit, stop-loss, hold-duration, returns the first matching reason and
`(false, "")` when none match; with take-profit at 2× entry and stop-loss at
0.5× entry, a price of 0.4× exits as "stop_loss", 2.5× exits as
"take_profit", and 1.0× with no duration elapsed does not exit. -/
theorem claim_C7_should_exit :
    (∀ (p : TradingBotSdk.Position) (c now : ℚ),
      TradingBotSdk.take_profit_hit p c = true →
      TradingBotSdk.should_exit p c now = (true, "take_profit")) ∧
    (∀ (p : TradingBotSdk.Position) (c now : ℚ),
      TradingBotSdk.take_profit_hit p c = false →
      TradingBotSdk.stop_loss_hit p c = true →
      TradingBotSdk.should_exit p c now = (true, "stop_loss")) ∧
    (∀ (p : TradingBotSdk.Position) (c now : ℚ),
      TradingBotSdk.take_profit_hit p c = false →
      TradingBotSdk.stop_loss_hit p c = false →
      TradingBotSdk.max_hold_time_hit p now = true →
      TradingBotSdk.should_exit p c now = (true, "max_hold_time")) ∧
    (∀ (p : TradingBotSdk.Position) (c now : ℚ),
      TradingBotSdk.take_profit_hit p c = false →
      TradingBotSdk.stop_loss_hit p c = false →
      TradingBotSdk.max_hold_time_hit p now = false →
      TradingBotSdk.should_exit p c now = (false, "")) ∧
    (TradingBotSdk.should_exit
        ⟨⟨"T", "T", "", "m", "", "", .PUMP_FUN, none, none, none, none⟩,
          1000000, 1, 1, 0, some 2, some (1 / 2), some 3600⟩ (2 / 5) 0 =
      (true, "stop_loss")) ∧
    (TradingBotSdk.should_exit
        ⟨⟨"T", "T", "", "m", "", "", .PUMP_FUN, none, none, none, none⟩,
          1000000, 1, 1, 0, some 2, some (1 / 2), some 3600⟩ (5 / 2) 0 =
      (true, "take_profit")) ∧
    (TradingBotSdk.should_exit
        ⟨⟨"T", "T", "", "m", "", "", .PUMP_FUN, none, none, none, none⟩,
          1000000, 1, 1, 0, some 2, some (1 / 2), some 3600⟩ 1 0 =
      (false, "")) := by
  refine ⟨?_, ?_, ?_, ?_, ?_, ?_, ?_⟩
  · intro p c now h
    simp [TradingBotSdk.should_exit, h]
  · intro p c now h1 h2
    simp [TradingBotSdk.should_exit, h1, h2]
  · intro p c now h1 h2 h3
    simp [TradingBotSdk.should_exit, h1, h2, h3]
  · intro p c now h1 h2 h3
    simp [TradingBotSdk.should_exit, h1, h2, h3]
  · norm_num [TradingBotSdk.should_exit, TradingBotSdk.take_profit_hit,
      TradingBotSdk.stop_loss_hit, TradingBotSdk.max_hold_time_hit,
      TradingBotSdk.pyTruthyGate]
  · norm_num [TradingBotSdk.should_exit, TradingBotSdk.take_profit_hit,
      TradingBotSdk.stop_loss_hit, TradingBotSdk.max_hold_time_hit,
      TradingBotSdk.pyTruthyGate]
  · norm_num [TradingBotSdk.should_exit, TradingBotSdk.take_profit_hit,
      TradingBotSdk.stop_loss_hit, TradingBotSdk.max_hold_time_hit,
      TradingBotSdk.pyTruthyGate]

/-- Witness for C7: the take-profit branch fires at an integral price. -/
theorem claim_C7_witness :
    TradingBotSdk.should_exit
        ⟨⟨"T", "T", "", "m", "", "", .PUMP_FUN, none, none, none, none⟩,
          1000000, 1, 1, 0, some 2, none, none⟩ 3 0 = (true, "take_profit") :=
  claim_C7_should_exit.1
    ⟨⟨"T", "T", "", "m", "", "", .PUMP_FUN, none, none, none, none⟩,
      1000000, 1, 1, 0, some 2, none, none⟩ 3 0 (by decide)

/-- C8 counterexample: the PumpSwap buy path reports success without any
amounts (`TradeResult(success=True, signature=tx_hash)`), so `buy_token`
creates no ledger entry for it — a successful post-graduation buy leaves the
position ledger unchanged, refuting "a successful buy (on either venue path)
creates a position entry". -/
theorem claim_C8_counterexample :
    (TradingBotSdk.pumpswap_buy_success_result "sig").success = true ∧
    TradingBotSdk.buy_token_position_update (fun _ => none) "mint"
        (TradingBotSdk.pumpswap_buy_success_result "sig") 0 "mint" = none := by
  exact ⟨rfl, rfl⟩

/-- C8 amended.  `buy_token` mutates the position ledger only when the trade
result is successful and carries non-zero `tokens_bought` and non-zero
`sol_spent`: a failed outcome leaves the ledger unchanged; a successful
bonding-curve buy (which reports both amounts) records tokens bought, SOL
spent and the entry price under the mint; a successful PumpSwap buy reports
no amounts and therefore never creates a position entry. -/
theorem claim_C8_ledger_amended :
    (∀ (positions : TradingBotSdk.Ledger) (mint : String)
        (r : TradingBotSdk.TradeResult) (now : ℚ) (m : String),
      r.success = false →
      TradingBotSdk.buy_token_position_update positions mint r now m = positions m) ∧
    (∀ (positions : TradingBotSdk.Ledger) (mint tx : String) (tokens : ℤ)
        (sol : ℚ) (now : ℚ),
      tokens ≠ 0 → sol ≠ 0 →
      TradingBotSdk.buy_token_position_update positions mint
          (TradingBotSdk.pumpfun_buy_success_result tx tokens sol) now mint =
        some { token_info :=
                 { name := "Unknown", symbol := "UNK", description := "",
                   mint := mint, creator := "", uri := "", platform := .PUMP_FUN },
               tokens_owned := tokens, sol_invested := sol,
               entry_price := sol / ((tokens : ℚ) / 1000000),
               entry_time := now }) ∧
    (∀ (positions : TradingBotSdk.Ledger) (mint tx : String) (now : ℚ)
        (m : String),
      TradingBotSdk.buy_token_position_update positions mint
          (TradingBotSdk.pumpswap_buy_success_result tx) now m = positions m) := by
  refine ⟨?_, ?_, ?_⟩
  · intro positions mint r now m h
    simp [TradingBotSdk.buy_token_position_update, h]
  · intro positions mint tx tokens sol now ht hs
    simp [TradingBotSdk.buy_token_position_update,
      TradingBotSdk.pumpfun_buy_success_result, TradingBotSdk.optIntTruthy,
      TradingBotSdk.optRatTruthy, ht, hs, TradingBotSdk.save_buy_position]
  · intro positions mint tx now m
    simp [TradingBotSdk.buy_token_position_update,
      TradingBotSdk.pumpswap_buy_success_result, TradingBotSdk.optIntTruthy]

/-- Witness for C8 amended: a failed result and a successful bonding-curve
result, both at concrete inputs. -/
theorem claim_C8_amended_witness :
    TradingBotSdk.buy_token_position_update (fun _ => none) "m"
        { success := false } 0 "m" = none ∧
    TradingBotSdk.buy_token_position_update (fun _ => none) "m"
        (TradingBotSdk.pumpfun_buy_success_result "t" 5 1) 0 "m" =
      some { token_info :=
               { name := "Unknown", symbol := "UNK", description := "",
                 mint := "m", creator := "", uri := "", platform := .PUMP_FUN },
             tokens_owned := 5, sol_invested := 1,
             entry_price := 1 / (((5 : ℤ) : ℚ) / 1000000), entry_time := 0 } :=
  ⟨claim_C8_ledger_amended.1 (fun _ => none) "m" { success := false } 0 "m" rfl,
   claim_C8_ledger_amended.2.1 (fun _ => none) "m" "t" 5 1 0 (by decide) (by decide)⟩

end AlgoPump
